import Mathlib

/-!
Shallow embedding of `src/py_client.py`, a small Python HTTP client for a
remote telemetry database.

Modelling conventions:
* JSON values (and the Python values that cross the wire) are the inductive
  type `Json`; Python dictionaries are association lists with unique keys.
* Python floats are modelled by `Rat`; the comparisons in the source are
  order-theoretic, so this is faithful for every claim considered here.
* A raised Python exception is an `Except PyError` result.
* Console output (`print`) is collected as an explicit list of structured
  messages `OutMsg`, one per `print` call in the source.
* The HTTP transport (`requests.post` / `requests.get`) is a parameter
  `server : Request → Response`; a `Response` carries its status code, its raw
  text, and `body`, the JSON parse of that text (`none` when the text is not
  well-formed JSON, in which case `response.json()` raises).
-/

/-- JSON values, as produced by `response.json()` and sent via `json=data`. -/
inductive Json : Type
  | null : Json
  | bool : Bool → Json
  | num : Rat → Json
  | str : String → Json
  | arr : List Json → Json
  | obj : List (String × Json) → Json

/-- Python exceptions that the embedded code can raise. -/
inductive PyError : Type
  | keyError (key : String)
  | typeError
  | jsonDecodeError
deriving DecidableEq

/-- Python dict lookup `d[k]`: returns the value stored under the key `k`,
raising `KeyError` when the key is absent (dict keys are unique). -/
def dictGet : List (String × Json) → String → Except PyError Json
  | [], k => Except.error (PyError.keyError k)
  | kv :: rest, k => if kv.1 = k then Except.ok kv.2 else dictGet rest k

/-- Python subscription `e[k]` on a JSON value: only mappings are
subscriptable by a string key; anything else raises `TypeError`. -/
def pySubscript (e : Json) (k : String) : Except PyError Json :=
  match e with
  | Json.obj d => dictGet d k
  | _ => Except.error PyError.typeError

/-- Python comparison `v > t` where `t` is a float: numbers (and booleans,
which Python treats as 0/1) compare numerically, everything else raises
`TypeError`. -/
def pyGtNum (v : Json) (t : Rat) : Except PyError Bool :=
  match v with
  | Json.num q => Except.ok (decide (q > t))
  | Json.bool b => Except.ok (decide ((if b then (1 : Rat) else 0) > t))
  | _ => Except.error PyError.typeError

/-- Python iteration `for entry in data` over a JSON value: lists yield their
elements, strings their characters, dicts their keys; other values are not
iterable and raise `TypeError`. -/
def pyIter (data : Json) : Except PyError (List Json) :=
  match data with
  | Json.arr xs => Except.ok xs
  | Json.str s => Except.ok (s.toList.map (fun c => Json.str (String.singleton c)))
  | Json.obj d => Except.ok (d.map (fun kv => Json.str kv.1))
  | _ => Except.error PyError.typeError

/-- Python truthiness of a JSON value (`if data:`): `None`, `False`, zero,
and empty strings/lists/dicts are falsy. -/
def jsonTruthy (j : Json) : Bool :=
  match j with
  | Json.null => false
  | Json.bool b => b
  | Json.num q => decide (q ≠ 0)
  | Json.str s => decide (s ≠ "")
  | Json.arr xs => !xs.isEmpty
  | Json.obj d => !d.isEmpty

/-- An outbound HTTP request as built by the client. -/
structure Request : Type where
  method : String
  url : String
  jsonBody : Option Json
  params : List (String × String)

/-- An HTTP response: status code, raw text, and the JSON parse of the text
(`none` when the text is not well-formed JSON). -/
structure Response : Type where
  status_code : Nat
  text : String
  body : Option Json

/-- The method `response.json()`: returns the parsed body, raising a decode error on
malformed JSON. -/
def Response.json (r : Response) : Except PyError Json :=
  match r.body with
  | some j => Except.ok j
  | none => Except.error PyError.jsonDecodeError

/-- One console message per `print` call in the source. -/
inductive OutMsg : Type
  | dataInserted (data : Json)
  | insertFailed (status : Nat) (text : String)
  | querySuccess
  | queryFailed (status : Nat) (text : String)
  | faultDetected (timestamp : Json) (value : Json)
  | noFaults
  | totalFaults (count : Nat)

/-- Base URL of the Rust server (`BASE_URL` in the source). -/
def BASE_URL : String := "http://localhost:8000"

/-- The request `insert_telemetry` sends: POST to `BASE_URL ++ "/telemetry"`
with the five-field JSON body, `fc1_flag` serialized as `null` when omitted. -/
def insertRequest (sensor_name timestamp : String) (value : Rat)
    (timeseries_id : String) (fc1_flag : Json) : Request :=
  { method := "POST"
    url := BASE_URL ++ "/telemetry"
    jsonBody := some (Json.obj
      [("sensor_name", Json.str sensor_name),
       ("timestamp", Json.str timestamp),
       ("value", Json.num value),
       ("fc1_flag", fc1_flag),
       ("timeseries_id", Json.str timeseries_id)])
    params := [] }

/-- Result of one call to `insert_telemetry`: the request it sent, what it
printed, and its Python return value (always `None`: the body has no
`return`). -/
structure InsertResult : Type where
  request : Request
  output : List OutMsg
  ret : Option Json

/-- The function `insert_telemetry` from the source: builds the five-field JSON body,
POSTs it, prints success on status 200 and the status code plus response text
otherwise, and returns `None` either way (no exception is raised once a
response is received). -/
def insert_telemetry (server : Request → Response) (sensor_name timestamp : String)
    (value : Rat) (timeseries_id : String) (fc1_flag : Json := Json.null) :
    InsertResult :=
  let request := insertRequest sensor_name timestamp value timeseries_id fc1_flag
  let response := server request
  { request := request
    output :=
      if response.status_code = 200 then
        [OutMsg.dataInserted (Json.obj
          [("sensor_name", Json.str sensor_name),
           ("timestamp", Json.str timestamp),
           ("value", Json.num value),
           ("fc1_flag", fc1_flag),
           ("timeseries_id", Json.str timeseries_id)])]
      else
        [OutMsg.insertFailed response.status_code response.text]
    ret := none }

/-- The request `query_telemetry` sends: GET `BASE_URL ++ "/query_by_id"` with
the three query parameters. -/
def queryRequest (timeseries_id start_time end_time : String) : Request :=
  { method := "GET"
    url := BASE_URL ++ "/query_by_id"
    jsonBody := none
    params := [("timeseries_id", timeseries_id),
               ("start_time", start_time),
               ("end_time", end_time)] }

/-- Result of one call to `query_telemetry`: the request it sent, what it
printed, and its Python return value (`response.json()` on 200, `None`
otherwise). -/
structure QueryResult : Type where
  request : Request
  output : List OutMsg
  ret : Option Json

/-- The function `query_telemetry` from the source: GETs `/query_by_id`; on status 200 it
prints a success line and returns the parsed JSON body (raising if the body is
malformed), otherwise it prints the status code plus response text and returns
`None`. -/
def query_telemetry (server : Request → Response)
    (timeseries_id start_time end_time : String) : Except PyError QueryResult :=
  let request := queryRequest timeseries_id start_time end_time
  let response := server request
  if response.status_code = 200 then
    match response.json with
    | Except.ok j =>
        Except.ok { request := request, output := [OutMsg.querySuccess], ret := some j }
    | Except.error e => Except.error e
  else
    Except.ok { request := request
                output := [OutMsg.queryFailed response.status_code response.text]
                ret := none }

/-- Result of one call to `check_for_fault`: the final value of the local
`fault_count`, what it printed, and its Python return value (always `None`:
the body has no `return`). -/
structure CheckResult : Type where
  fault_count : Nat
  output : List OutMsg
  ret : Option Json

/-- The `for entry in data` loop of `check_for_fault`: accumulates
`fault_count` and the printed fault lines.  Each entry is subscripted at
`value` (KeyError if absent), compared against the threshold (TypeError if
not a number), and, when it exceeds the threshold, subscripted at
`timestamp` and again at `value` for the print. -/
def cffLoop (fault_threshold : Rat) :
    List Json → Nat → List OutMsg → Except PyError (Nat × List OutMsg)
  | [], fault_count, out => Except.ok (fault_count, out)
  | entry :: rest, fault_count, out =>
    match pySubscript entry "value" with
    | Except.error e => Except.error e
    | Except.ok v =>
      match pyGtNum v fault_threshold with
      | Except.error e => Except.error e
      | Except.ok b =>
        if b then
          match pySubscript entry "timestamp" with
          | Except.error e => Except.error e
          | Except.ok ts =>
            match pySubscript entry "value" with
            | Except.error e => Except.error e
            | Except.ok v2 =>
              cffLoop fault_threshold rest (fault_count + 1)
                (out ++ [OutMsg.faultDetected ts v2])
        else
          cffLoop fault_threshold rest fault_count out

/-- The function `check_for_fault` from the source: iterates `data`, counts entries whose
`value` strictly exceeds `fault_threshold`, printing each fault, then prints
either the no-faults line or the total, and returns `None`. -/
def check_for_fault (data : Json) (fault_threshold : Rat := 0.95) :
    Except PyError CheckResult :=
  match pyIter data with
  | Except.error e => Except.error e
  | Except.ok entries =>
    match cffLoop fault_threshold entries 0 [] with
    | Except.error e => Except.error e
    | Except.ok (fault_count, out) =>
      Except.ok
        { fault_count := fault_count
          output := out ++
            [if fault_count = 0 then OutMsg.noFaults else OutMsg.totalFaults fault_count]
          ret := none }

/-- The fixed series identifier used by the demo entry point. -/
def demoSeriesId : String := "8f541ba4-c437-43ba-ba1d-5c946583fe54"

/-- The demo query window start (`start_time` in `__main__`). -/
def demoStart : String := "2024-08-28T12:00:00Z"

/-- The demo query window end (`end_time` in `__main__`). -/
def demoEnd : String := "2024-08-28T12:03:00Z"

/-- The `__main__` block of the source: inserts three sample readings, queries
the series over the fixed window, and runs `check_for_fault` only when the
query result is truthy (`if data:`), i.e. neither `None` nor an empty or
otherwise falsy value. -/
def main_flow (server : Request → Response) : Except PyError (List OutMsg) :=
  let t1 := insert_telemetry server "Sa_FanSpeed" "2024-08-28T12:00:00Z" 0.8 demoSeriesId
  let t2 := insert_telemetry server "Sa_FanSpeed" "2024-08-28T12:01:00Z" 0.9 demoSeriesId
  let t3 := insert_telemetry server "Sa_FanSpeed" "2024-08-28T12:02:00Z" 1.0 demoSeriesId
  match query_telemetry server demoSeriesId demoStart demoEnd with
  | Except.error e => Except.error e
  | Except.ok q =>
    let pre := t1.output ++ t2.output ++ t3.output ++ q.output
    match q.ret with
    | none => Except.ok pre
    | some data =>
      if jsonTruthy data then
        match check_for_fault data 0.95 with
        | Except.error e => Except.error e
        | Except.ok c => Except.ok (pre ++ c.output)
      else
        Except.ok pre

/-- The numeric value stored at key `value` of an entry, when the entry is a
mapping with a numeric `value`. -/
def entryValueNum (e : Json) : Option Rat :=
  match pySubscript e "value" with
  | Except.ok (Json.num q) => some q
  | _ => none

/-- The value stored at key `timestamp` of an entry, when present. -/
def entryTs (e : Json) : Option Json :=
  match pySubscript e "timestamp" with
  | Except.ok t => some t
  | _ => none

/-- A well-formed Query Result Entry: a mapping with a numeric `value` and
some `timestamp`. -/
def goodEntryB (e : Json) : Bool :=
  (entryValueNum e).isSome && (entryTs e).isSome

/-- Whether the `value` of an entry strictly exceeds the threshold. -/
def entryFaulty (fault_threshold : Rat) (e : Json) : Bool :=
  match entryValueNum e with
  | some q => decide (q > fault_threshold)
  | none => false

/-- The key-presence precondition of `check_for_fault`: the entry is a mapping
with a `value` key, and when its value compares above the threshold the
entry also has a `timestamp` key. -/
def keySafeEntryB (fault_threshold : Rat) (e : Json) : Bool :=
  match pySubscript e "value" with
  | Except.error _ => false
  | Except.ok v =>
    match pyGtNum v fault_threshold with
    | Except.ok true => (pySubscript e "timestamp").isOk
    | _ => true

/-- Whether a result is a raised `KeyError`. -/
def isKeyErrorE {α : Type} : Except PyError α → Bool
  | Except.error (PyError.keyError _) => true
  | _ => false

/-- The final `fault_count` of a `check_for_fault` run, `none` when the run
raised. -/
def faultCountOf : Except PyError CheckResult → Option Nat
  | Except.ok r => some r.fault_count
  | Except.error _ => none

/-- Messages that only `check_for_fault` prints. -/
def isCheckMsg : OutMsg → Bool
  | OutMsg.faultDetected _ _ => true
  | OutMsg.noFaults => true
  | OutMsg.totalFaults _ => true
  | _ => false

/-- The `check_for_fault` messages of a `main_flow` run. -/
def checkMsgsOf : Except PyError (List OutMsg) → List OutMsg
  | Except.ok out => out.filter isCheckMsg
  | Except.error _ => []

/-- A mock server answering every request with HTTP 500 and a non-JSON body. -/
def mockServer500 : Request → Response :=
  fun _ => { status_code := 500, text := "internal error", body := none }

/-- A mock server answering every request with HTTP 404 and a non-JSON body. -/
def mockServer404 : Request → Response :=
  fun _ => { status_code := 404, text := "not found", body := none }

/-- A mock server answering every request with HTTP 200 and a plain body. -/
def mockServer200 : Request → Response :=
  fun _ => { status_code := 200, text := "ok", body := some Json.null }

/-- The example response array from the spec: two entries with values 1.0 and
0.5. -/
def specExampleArray : List Json :=
  [Json.obj [("timestamp", Json.str "t1"), ("value", Json.num 1)],
   Json.obj [("timestamp", Json.str "t2"), ("value", Json.num (1/2))]]

/-- A mock server answering every request with HTTP 200 and the example
array from the spec as body. -/
def mockServerExample : Request → Response :=
  fun _ => { status_code := 200
             text := "two-entry json array"
             body := some (Json.arr specExampleArray) }

/-- A mock server answering queries with HTTP 200 and an empty JSON array, and
insertions with HTTP 200. -/
def mockServerEmptyArr : Request → Response :=
  fun req =>
    if req.method = "GET" then
      { status_code := 200, text := "[]", body := some (Json.arr []) }
    else
      { status_code := 200, text := "ok", body := some Json.null }

theorem entryValueNum_spec {e : Json} {q : Rat} (h : entryValueNum e = some q) :
    pySubscript e "value" = Except.ok (Json.num q) := by
  unfold entryValueNum at h
  cases hv : pySubscript e "value" with
  | ok v => rw [hv] at h; cases v <;> simp_all
  | error err => rw [hv] at h; simp at h

theorem entryTs_spec {e : Json} {t : Json} (h : entryTs e = some t) :
    pySubscript e "timestamp" = Except.ok t := by
  unfold entryTs at h
  cases hv : pySubscript e "timestamp" with
  | ok v => rw [hv] at h; simp_all
  | error err => rw [hv] at h; simp at h

theorem pyGtNum_num (q thr : Rat) :
    pyGtNum (Json.num q) thr = Except.ok (decide (thr < q)) := rfl

theorem cffLoop_cons_fault {thr : Rat} {e v t : Json} {rest : List Json}
    (hv : pySubscript e "value" = Except.ok v)
    (hb : pyGtNum v thr = Except.ok true)
    (ht : pySubscript e "timestamp" = Except.ok t)
    (count : Nat) (out : List OutMsg) :
    cffLoop thr (e :: rest) count out =
      cffLoop thr rest (count + 1) (out ++ [OutMsg.faultDetected t v]) := by
  simp [cffLoop, hv, hb, ht]

theorem cffLoop_cons_nofault {thr : Rat} {e v : Json} {rest : List Json}
    (hv : pySubscript e "value" = Except.ok v)
    (hb : pyGtNum v thr = Except.ok false)
    (count : Nat) (out : List OutMsg) :
    cffLoop thr (e :: rest) count out = cffLoop thr rest count out := by
  simp [cffLoop, hv, hb]

-- The loop invariant: on a list of well-formed entries the loop succeeds and
-- adds to `count` exactly the number of entries whose value exceeds the
-- threshold.
theorem cffLoop_count_of_good (thr : Rat) :
    ∀ data : List Json, data.all goodEntryB = true →
    ∀ (count : Nat) (out : List OutMsg),
      ∃ msgs, cffLoop thr data count out =
        Except.ok (count + data.countP (entryFaulty thr), out ++ msgs) := by
  intro data
  induction data with
  | nil => intro _ count out; exact ⟨[], by simp [cffLoop]⟩
  | cons e rest ih =>
    intro hall count out
    rw [List.all_cons, Bool.and_eq_true] at hall
    obtain ⟨he, hrest⟩ := hall
    rw [goodEntryB, Bool.and_eq_true, Option.isSome_iff_exists, Option.isSome_iff_exists] at he
    obtain ⟨⟨q, hq⟩, t, ht⟩ := he
    have hqv := entryValueNum_spec hq
    have htv := entryTs_spec ht
    have hfe : entryFaulty thr e = decide (thr < q) := by rw [entryFaulty, hq]
    by_cases hgt : thr < q
    · obtain ⟨msgs, hm⟩ :=
        ih hrest (count + 1) (out ++ [OutMsg.faultDetected t (Json.num q)])
      refine ⟨OutMsg.faultDetected t (Json.num q) :: msgs, ?_⟩
      rw [cffLoop_cons_fault hqv (by rw [pyGtNum_num, decide_eq_true hgt]) htv, hm]
      have hc : count + 1 + List.countP (entryFaulty thr) rest =
          count + List.countP (entryFaulty thr) (e :: rest) := by
        rw [List.countP_cons, hfe, decide_eq_true hgt]
        simp
        omega
      rw [hc, List.append_assoc]
      simp
    · obtain ⟨msgs, hm⟩ := ih hrest count out
      refine ⟨msgs, ?_⟩
      rw [cffLoop_cons_nofault hqv
        (by rw [pyGtNum_num, decide_eq_false hgt]), hm]
      have hc : count + List.countP (entryFaulty thr) rest =
          count + List.countP (entryFaulty thr) (e :: rest) := by
        rw [List.countP_cons, hfe, decide_eq_false hgt]
        simp
      rw [hc]

theorem pyGtNum_error {v : Json} {thr : Rat} {err : PyError}
    (h : pyGtNum v thr = Except.error err) : err = PyError.typeError := by
  cases v <;> simp_all [pyGtNum]

-- On entries whose keys satisfy the key-presence precondition, the loop never
-- raises a `KeyError` (it can still raise `TypeError` on non-numeric values).
theorem cffLoop_no_keyError (thr : Rat) :
    ∀ data : List Json, data.all (keySafeEntryB thr) = true →
    ∀ (count : Nat) (out : List OutMsg),
      isKeyErrorE (cffLoop thr data count out) = false := by
  intro data
  induction data with
  | nil => intro _ count out; simp [cffLoop, isKeyErrorE]
  | cons e rest ih =>
    intro hall count out
    rw [List.all_cons, Bool.and_eq_true] at hall
    obtain ⟨he, hrest⟩ := hall
    unfold keySafeEntryB at he
    cases hv : pySubscript e "value" with
    | error err => simp only [hv] at he; exact absurd he (by simp)
    | ok v =>
      simp only [hv] at he
      cases hb : pyGtNum v thr with
      | error err =>
        rw [pyGtNum_error hb] at hb
        simp [cffLoop, hv, hb, isKeyErrorE]
      | ok b =>
        cases b with
        | false =>
          rw [cffLoop_cons_nofault hv hb]
          exact ih hrest count out
        | true =>
          simp only [hb] at he
          cases ht : pySubscript e "timestamp" with
          | error err => rw [ht] at he; simp [Except.isOk, Except.toBool] at he
          | ok t =>
            rw [cffLoop_cons_fault hv hb ht]
            exact ih hrest _ _

-- `insert_telemetry` prints only insertion messages, never fault-check ones.
theorem insert_output_not_check (server : Request → Response)
    (sensor_name timestamp : String) (value : Rat) (timeseries_id : String)
    (fc1_flag : Json) :
    (insert_telemetry server sensor_name timestamp value timeseries_id
      fc1_flag).output.filter isCheckMsg = [] := by
  rw [insert_telemetry]
  by_cases h : (server (insertRequest sensor_name timestamp value timeseries_id
      fc1_flag)).status_code = 200 <;>
    simp [h, isCheckMsg]

-- Shared evaluation of `query_telemetry` on a non-200 response.
theorem query_telemetry_non200_eq {server : Request → Response}
    {timeseries_id start_time end_time : String}
    (h : (server (queryRequest timeseries_id start_time end_time)).status_code ≠ 200) :
    query_telemetry server timeseries_id start_time end_time =
      Except.ok
        { request := queryRequest timeseries_id start_time end_time
          output := [OutMsg.queryFailed
            (server (queryRequest timeseries_id start_time end_time)).status_code
            (server (queryRequest timeseries_id start_time end_time)).text]
          ret := none } := by
  simp [query_telemetry, h]

-- Shared evaluation of `query_telemetry` on a 200 response with parsed body.
theorem query_telemetry_200_eq {server : Request → Response}
    {timeseries_id start_time end_time : String} {j : Json}
    (h200 : (server (queryRequest timeseries_id start_time end_time)).status_code = 200)
    (hbody : (server (queryRequest timeseries_id start_time end_time)).body = some j) :
    query_telemetry server timeseries_id start_time end_time =
      Except.ok
        { request := queryRequest timeseries_id start_time end_time
          output := [OutMsg.querySuccess]
          ret := some j } := by
  simp [query_telemetry, Response.json, h200, hbody]

-- Shared evaluation of `check_for_fault` on a list of well-formed entries.
theorem check_for_fault_count_of_good (data : List Json) (thr : Rat)
    (h : data.all goodEntryB = true) :
    faultCountOf (check_for_fault (Json.arr data) thr) =
      some (data.countP (entryFaulty thr)) := by
  obtain ⟨msgs, hm⟩ := cffLoop_count_of_good thr data h 0 []
  simp [check_for_fault, pyIter, hm, faultCountOf]

/-- C1: for every input sequence of well-formed entries (mappings with a
numeric `value` and a `timestamp`) and every numeric threshold,
`check_for_fault` succeeds and its fault count equals the number of entries
whose `value` strictly exceeds the threshold; entries whose value is equal
to or below the threshold are never counted. -/
theorem check_for_fault_counts_exceedances
    (data : List Json) (fault_threshold : Rat)
    (h : data.all goodEntryB = true) :
    faultCountOf (check_for_fault (Json.arr data) fault_threshold) =
      some (data.countP (entryFaulty fault_threshold)) :=
  check_for_fault_count_of_good data fault_threshold h

theorem check_for_fault_counts_exceedances_witness :
    (specExampleArray.all goodEntryB = true) ∧
    faultCountOf (check_for_fault (Json.arr specExampleArray) (0.95 : Rat)) =
      some 1 := by
  have h : specExampleArray.all goodEntryB = true := by
    simp [specExampleArray, goodEntryB, entryValueNum, entryTs, pySubscript, dictGet]
  refine ⟨h, (check_for_fault_counts_exceedances specExampleArray 0.95 h).trans ?_⟩
  simp [specExampleArray, List.countP_cons, entryFaulty, entryValueNum, pySubscript, dictGet]
  norm_num

/-- C2: every request sent by `insert_telemetry` is an HTTP POST to the path
`/telemetry` on the base endpoint, whose JSON body contains exactly the five
fields `sensor_name`, `timestamp`, `value`, `fc1_flag`, `timeseries_id`; the
`fc1_flag` field is present even when the caller omits it, in which case it is
`null`. -/
theorem insert_telemetry_body_five_fields (server : Request → Response)
    (sensor_name timestamp : String) (value : Rat) (timeseries_id : String)
    (fc1_flag : Json) :
    (insert_telemetry server sensor_name timestamp value timeseries_id
        fc1_flag).request =
      { method := "POST"
        url := BASE_URL ++ "/telemetry"
        jsonBody := some (Json.obj
          [("sensor_name", Json.str sensor_name),
           ("timestamp", Json.str timestamp),
           ("value", Json.num value),
           ("fc1_flag", fc1_flag),
           ("timeseries_id", Json.str timeseries_id)])
        params := [] } ∧
    (insert_telemetry server sensor_name timestamp value
        timeseries_id).request.jsonBody =
      some (Json.obj
        [("sensor_name", Json.str sensor_name),
         ("timestamp", Json.str timestamp),
         ("value", Json.num value),
         ("fc1_flag", Json.null),
         ("timeseries_id", Json.str timeseries_id)]) :=
  ⟨rfl, rfl⟩

/-- C3: for every response with a status other than 200, `query_telemetry`
returns normally with the absent-data marker `none`, printing the status code
and the raw response text, rather than raising or returning data. -/
theorem query_telemetry_non200_returns_none (server : Request → Response)
    (timeseries_id start_time end_time : String)
    (h : (server (queryRequest timeseries_id start_time end_time)).status_code ≠ 200) :
    query_telemetry server timeseries_id start_time end_time =
      Except.ok
        { request := queryRequest timeseries_id start_time end_time
          output := [OutMsg.queryFailed
            (server (queryRequest timeseries_id start_time end_time)).status_code
            (server (queryRequest timeseries_id start_time end_time)).text]
          ret := none } :=
  query_telemetry_non200_eq h

theorem query_telemetry_non200_returns_none_witness :
    ((mockServer500 (queryRequest demoSeriesId demoStart demoEnd)).status_code ≠ 200) ∧
    query_telemetry mockServer500 demoSeriesId demoStart demoEnd =
      Except.ok
        { request := queryRequest demoSeriesId demoStart demoEnd
          output := [OutMsg.queryFailed 500 "internal error"]
          ret := none } :=
  ⟨by decide,
   query_telemetry_non200_returns_none mockServer500 demoSeriesId demoStart demoEnd
     (by decide)⟩

/-- C4: for every response with status 200 whose body parses as a JSON array,
`query_telemetry` returns exactly that parsed array, unmodified and in the
order the server returned it. -/
theorem query_telemetry_200_returns_parsed_array (server : Request → Response)
    (timeseries_id start_time end_time : String) (l : List Json)
    (h200 : (server (queryRequest timeseries_id start_time end_time)).status_code = 200)
    (hbody : (server (queryRequest timeseries_id start_time end_time)).body =
      some (Json.arr l)) :
    query_telemetry server timeseries_id start_time end_time =
      Except.ok
        { request := queryRequest timeseries_id start_time end_time
          output := [OutMsg.querySuccess]
          ret := some (Json.arr l) } :=
  query_telemetry_200_eq h200 hbody

theorem query_telemetry_200_returns_parsed_array_witness :
    ((mockServerExample (queryRequest demoSeriesId demoStart demoEnd)).status_code = 200) ∧
    ((mockServerExample (queryRequest demoSeriesId demoStart demoEnd)).body =
      some (Json.arr specExampleArray)) ∧
    query_telemetry mockServerExample demoSeriesId demoStart demoEnd =
      Except.ok
        { request := queryRequest demoSeriesId demoStart demoEnd
          output := [OutMsg.querySuccess]
          ret := some (Json.arr specExampleArray) } :=
  ⟨rfl, rfl,
   query_telemetry_200_returns_parsed_array mockServerExample demoSeriesId demoStart
     demoEnd specExampleArray rfl rfl⟩

/-- C5: for every response with a status other than 200, `insert_telemetry`
does not raise (it is a total function of the response), prints the failure
including the status code and the raw response text, and returns `None`,
propagating no success or failure value to the caller. -/
theorem insert_telemetry_non200_reports_and_returns_none
    (server : Request → Response) (sensor_name timestamp : String) (value : Rat)
    (timeseries_id : String) (fc1_flag : Json)
    (h : (server (insertRequest sensor_name timestamp value timeseries_id
      fc1_flag)).status_code ≠ 200) :
    (insert_telemetry server sensor_name timestamp value timeseries_id
        fc1_flag).output =
      [OutMsg.insertFailed
        (server (insertRequest sensor_name timestamp value timeseries_id
          fc1_flag)).status_code
        (server (insertRequest sensor_name timestamp value timeseries_id
          fc1_flag)).text] ∧
    (insert_telemetry server sensor_name timestamp value timeseries_id
        fc1_flag).ret = none := by
  refine ⟨?_, rfl⟩
  simp [insert_telemetry, h]

theorem insert_telemetry_non200_witness :
    ((mockServer404 (insertRequest "Sa_FanSpeed" "2024-08-28T12:00:00Z" 1
      demoSeriesId Json.null)).status_code ≠ 200) ∧
    (insert_telemetry mockServer404 "Sa_FanSpeed" "2024-08-28T12:00:00Z" 1
      demoSeriesId Json.null).output = [OutMsg.insertFailed 404 "not found"] ∧
    (insert_telemetry mockServer404 "Sa_FanSpeed" "2024-08-28T12:00:00Z" 1
      demoSeriesId Json.null).ret = none :=
  ⟨by decide,
   insert_telemetry_non200_reports_and_returns_none mockServer404 "Sa_FanSpeed"
     "2024-08-28T12:00:00Z" 1 demoSeriesId Json.null (by decide)⟩

/-- C6: on the empty input sequence and any threshold, `check_for_fault`
yields a fault count of 0, reported by the dedicated no-faults message (a
reported outcome, distinct from the absent-data marker `none` used by
queries), and returns `None`. -/
theorem check_for_fault_empty (fault_threshold : Rat) :
    check_for_fault (Json.arr []) fault_threshold =
      Except.ok { fault_count := 0, output := [OutMsg.noFaults], ret := none } := by
  simp [check_for_fault, cffLoop, pyIter]

/-- C7: for every sequence of well-formed entries and every permutation of it,
`check_for_fault` yields the same total fault count on both (the count is
order-independent). -/
theorem check_for_fault_count_perm_invariant
    (d1 d2 : List Json) (fault_threshold : Rat)
    (hp : d1.Perm d2) (h1 : d1.all goodEntryB = true) :
    faultCountOf (check_for_fault (Json.arr d1) fault_threshold) =
      faultCountOf (check_for_fault (Json.arr d2) fault_threshold) := by
  have h2 : d2.all goodEntryB = true := by
    rw [List.all_eq_true] at h1 ⊢
    intro e hme
    exact h1 e (hp.mem_iff.mpr hme)
  rw [check_for_fault_count_of_good d1 _ h1, check_for_fault_count_of_good d2 _ h2,
    hp.countP_eq (entryFaulty fault_threshold)]

theorem check_for_fault_count_perm_invariant_witness :
    (specExampleArray.Perm
      [Json.obj [("timestamp", Json.str "t2"), ("value", Json.num (1/2))],
       Json.obj [("timestamp", Json.str "t1"), ("value", Json.num 1)]]) ∧
    (specExampleArray.all goodEntryB = true) ∧
    faultCountOf (check_for_fault (Json.arr specExampleArray) (0.95 : Rat)) =
      faultCountOf (check_for_fault (Json.arr
        [Json.obj [("timestamp", Json.str "t2"), ("value", Json.num (1/2))],
         Json.obj [("timestamp", Json.str "t1"), ("value", Json.num 1)]])
        (0.95 : Rat)) := by
  have hp : specExampleArray.Perm
      [Json.obj [("timestamp", Json.str "t2"), ("value", Json.num (1/2))],
       Json.obj [("timestamp", Json.str "t1"), ("value", Json.num 1)]] :=
    List.Perm.swap _ _ _
  have h1 : specExampleArray.all goodEntryB = true := by
    simp [specExampleArray, goodEntryB, entryValueNum, entryTs, pySubscript, dictGet]
  exact ⟨hp, h1,
    check_for_fault_count_perm_invariant specExampleArray _ 0.95 hp h1⟩

/-- C8: for every input and every threshold, whenever `check_for_fault`
returns normally its Python return value is `None`: the computed fault count
is never returned to the caller. -/
theorem check_for_fault_returns_none (data : Json) (fault_threshold : Rat)
    (r : CheckResult)
    (h : check_for_fault data fault_threshold = Except.ok r) :
    r.ret = none := by
  unfold check_for_fault at h
  cases hi : pyIter data with
  | error e => simp only [hi] at h; exact Except.noConfusion h
  | ok entries =>
    simp only [hi] at h
    cases hc : cffLoop fault_threshold entries 0 [] with
    | error e => simp only [hc] at h; exact Except.noConfusion h
    | ok pr =>
      obtain ⟨n, out⟩ := pr
      simp only [hc, Except.ok.injEq] at h
      rw [← h]

theorem check_for_fault_returns_none_witness :
    check_for_fault (Json.arr []) (0.95 : Rat) =
      Except.ok { fault_count := 0, output := [OutMsg.noFaults], ret := none } ∧
    ({ fault_count := 0, output := [OutMsg.noFaults], ret := none } :
      CheckResult).ret = none := by
  have h : check_for_fault (Json.arr []) (0.95 : Rat) =
      Except.ok { fault_count := 0, output := [OutMsg.noFaults], ret := none } := by
    simp [check_for_fault, cffLoop, pyIter]
  exact ⟨h, check_for_fault_returns_none (Json.arr []) 0.95 _ h⟩

/-- C9: `check_for_fault` raises a `KeyError` on an input containing an entry
without a `value` key; and when every entry is a mapping with a `value`
key where entries whose value compares above the threshold also have a
`timestamp` key, no `KeyError` is ever raised. -/
theorem check_for_fault_key_requirements :
    check_for_fault (Json.arr [Json.obj []]) (0.95 : Rat) =
      Except.error (PyError.keyError "value") ∧
    ∀ (data : List Json) (fault_threshold : Rat),
      data.all (keySafeEntryB fault_threshold) = true →
      isKeyErrorE (check_for_fault (Json.arr data) fault_threshold) = false := by
  constructor
  · simp [check_for_fault, cffLoop, pyIter, pySubscript, dictGet]
  · intro data thr h
    have hl := cffLoop_no_keyError thr data h 0 []
    unfold check_for_fault
    simp only [pyIter]
    cases hc : cffLoop thr data 0 [] with
    | error e =>
      simp only [hc]
      rw [hc] at hl
      cases e <;> simp_all [isKeyErrorE]
    | ok pr =>
      obtain ⟨n, out⟩ := pr
      simp [isKeyErrorE]

theorem check_for_fault_key_requirements_witness :
    ([Json.obj [("value", Json.num 1), ("timestamp", Json.str "t")]].all
      (keySafeEntryB (0.95 : Rat)) = true) ∧
    isKeyErrorE (check_for_fault
      (Json.arr [Json.obj [("value", Json.num 1), ("timestamp", Json.str "t")]])
      (0.95 : Rat)) = false := by
  have h : [Json.obj [("value", Json.num 1), ("timestamp", Json.str "t")]].all
      (keySafeEntryB (0.95 : Rat)) = true := by
    simp [keySafeEntryB, pySubscript, dictGet, pyGtNum, Except.isOk, Except.toBool]
    norm_num
  exact ⟨h, check_for_fault_key_requirements.2 _ _ h⟩

/-- C10: in the demo entry point, fault detection is guarded by the
truthiness of the query result: `check_for_fault` is skipped both when the
query returns the absent-data marker `none` (non-200 response) and when it
returns an empty list, so a successful query with zero readings produces no
fault-check output at all. -/
theorem main_flow_truthiness_guard (server : Request → Response)
    (h : (server (queryRequest demoSeriesId demoStart demoEnd)).status_code ≠ 200 ∨
      ((server (queryRequest demoSeriesId demoStart demoEnd)).status_code = 200 ∧
       (server (queryRequest demoSeriesId demoStart demoEnd)).body =
         some (Json.arr []))) :
    (main_flow server).isOk = true ∧ checkMsgsOf (main_flow server) = [] := by
  cases h with
  | inl hne =>
    have hq := query_telemetry_non200_eq hne
    constructor
    · simp [main_flow, hq, Except.isOk, Except.toBool]
    · simp [main_flow, hq, checkMsgsOf, List.filter_append,
        insert_output_not_check, isCheckMsg]
  | inr hpair =>
    obtain ⟨h200, hbody⟩ := hpair
    have hq := query_telemetry_200_eq h200 hbody
    constructor
    · simp [main_flow, hq, jsonTruthy, Except.isOk, Except.toBool]
    · simp [main_flow, hq, jsonTruthy, checkMsgsOf, List.filter_append,
        insert_output_not_check, isCheckMsg]

theorem main_flow_truthiness_guard_witness :
    ((mockServerEmptyArr (queryRequest demoSeriesId demoStart demoEnd)).status_code ≠ 200 ∨
      ((mockServerEmptyArr (queryRequest demoSeriesId demoStart demoEnd)).status_code = 200 ∧
       (mockServerEmptyArr (queryRequest demoSeriesId demoStart demoEnd)).body =
         some (Json.arr []))) ∧
    (main_flow mockServerEmptyArr).isOk = true ∧
    checkMsgsOf (main_flow mockServerEmptyArr) = [] := by
  have h : (mockServerEmptyArr (queryRequest demoSeriesId demoStart
        demoEnd)).status_code ≠ 200 ∨
      ((mockServerEmptyArr (queryRequest demoSeriesId demoStart
        demoEnd)).status_code = 200 ∧
       (mockServerEmptyArr (queryRequest demoSeriesId demoStart demoEnd)).body =
         some (Json.arr [])) := by
    right
    constructor <;> simp [mockServerEmptyArr, queryRequest]
  exact ⟨h, main_flow_truthiness_guard mockServerEmptyArr h⟩
